import Mathlib

/-!
# Verification of the BrotherOwlBot data-enrichment utilities

Shallow embedding of:

* `src/src/utils/tornstats_adapter.py` (`TornStatsAdapter`): JSON-API strategy,
  HTML fallback strategies, response normalisation, and the TTL cache;
* `src/bot_package/src/utils/stats_estimator.py` and
  `src/backup_utils/stats_estimator.py`: spy-data records, stat estimation and
  battle recommendations.

Python values parsed from JSON are modelled by the inductive `JValue`; Python
`dict` objects become ordered association lists (Python dicts preserve
insertion order, so equality of the list model matches equality of dicts
including key order).  Python operations whose semantics depend on the dynamic
type (`'k' in x`, `x['k']`, `x.get(k, d)`) are modelled as `Except Unit _`
computations, where `.error ()` stands for a raised exception
(TypeError / KeyError / AttributeError).  The network is modelled as a pure
environment `Env : String → NetResult` mapping each requested URL to its
outcome; a request is identified by its URL (the two phases of the JSON-API
strategy use textually different URLs, because the second phase appends
`?key=...`).  Monotone wall-clock time (`asyncio.get_event_loop().time()`,
`time.time()`) is passed explicitly as a rational `now`.
-/

set_option maxHeartbeats 1000000

/-- A JSON value as produced by Python's `json` parsing: `None`, booleans,
numbers, strings, lists, and (insertion-ordered) dicts with string keys. -/
inductive JValue where
  | jnull
  | jbool (b : Bool)
  | jnum (q : ℚ)
  | jstr (s : String)
  | jarr (l : List JValue)
  | jobj (l : List (String × JValue))

/-- Python truthiness of a parsed-JSON value: `None`/`False`/`0`/`""` and the
empty list / empty dict are falsy, everything else truthy. -/
def truthy : JValue → Bool
  | .jnull => false
  | .jbool b => b
  | .jnum q => decide (q ≠ 0)
  | .jstr s => decide (s ≠ "")
  | .jarr l => !l.isEmpty
  | .jobj l => !l.isEmpty

/-- First-match lookup in the dict model (Python dicts have unique keys, so
first-match agrees with dict lookup on every faithfully built object). -/
def olookup : List (String × JValue) → String → Option JValue
  | [], _ => none
  | (k, v) :: rest, key => if k = key then some v else olookup rest key

/-- Does the dict model contain the key? (`l.any (fun p => p.1 = k)`) -/
def hasKey : List (String × JValue) → String → Bool
  | [], _ => false
  | (k, _) :: rest, key => k = key || hasKey rest key

/-- Python `x == 'lit'` where `x` is a parsed-JSON value: string equality when
`x` is a string, `False` (no exception) otherwise. -/
def isStrEq (v : JValue) (lit : String) : Bool :=
  match v with
  | .jstr s => s = lit
  | _ => false

/-- Python `key in data` for a parsed-JSON value: key containment on dicts,
element equality on lists, substring test on strings, and a raised `TypeError`
on `None` / booleans / numbers. -/
def pyIn (key : String) (v : JValue) : Except Unit Bool :=
  match v with
  | .jobj l => .ok (hasKey l key)
  | .jarr l => .ok (l.any (fun x => isStrEq x key))
  | .jstr s => .ok (decide (2 ≤ (s.splitOn key).length))
  | _ => .error ()

/-- Python `data[key]` for a parsed-JSON value: dict lookup (KeyError when
absent), and a raised `TypeError` on every non-dict (string and list indices
must be integers). -/
def pySubscript (v : JValue) (key : String) : Except Unit JValue :=
  match v with
  | .jobj l =>
    match olookup l key with
    | some x => .ok x
    | none => .error ()
  | _ => .error ()

/-- Python `data.get(key, default)`: only dicts have `.get`; anything else
raises `AttributeError`. -/
def pyGet (v : JValue) (key : String) (dflt : JValue) : Except Unit JValue :=
  match v with
  | .jobj l => .ok ((olookup l key).getD dflt)
  | _ => .error ()

/-- The canonical record built by the wrapping branches of
`_normalize_tornstats_data` (and, with other `update_time`/`source` strings,
by the HTML parsers): key order follows the source literally. -/
def spyWrap (name level strength defense speed dexterity updateTime source : JValue) :
    JValue :=
  .jobj [("spy", .jobj
    [("name", name), ("level", level), ("strength", strength), ("defense", defense),
     ("speed", speed), ("dexterity", dexterity), ("update_time", updateTime),
     ("source", source)])]

/-- `TornStatsAdapter._normalize_tornstats_data` (tornstats_adapter.py 396-453).
`.error ()` models a raised exception (e.g. `'spy' in 5` raises TypeError). -/
def normalize_tornstats_data (data : JValue) : Except Unit JValue := do
  if (← pyIn "spy" data) then
    return data
  if (← pyIn "user" data) then
    let userData ← pySubscript data "user"
    let name ← pyGet userData "name" (.jstr "Unknown")
    let level ← pyGet userData "level" (.jnum 0)
    let strength ← pyGet userData "strength" (.jnum 0)
    let defense ← pyGet userData "defense" (.jnum 0)
    let speed ← pyGet userData "speed" (.jnum 0)
    let dexterity ← pyGet userData "dexterity" (.jnum 0)
    let updateTime ← pyGet userData "update_time" (.jstr "Unknown")
    return spyWrap name level strength defense speed dexterity updateTime
      (.jstr "TornStats API")
  -- `if 'status' in data and data['status'] == 'ok' and 'stats' in data:`
  let hasStatus ← pyIn "status" data
  let statsBranch ←
    if hasStatus then do
      let st ← pySubscript data "status"
      if isStrEq st "ok" then pyIn "stats" data else pure false
    else pure false
  if statsBranch then
    let statsData ← pySubscript data "stats"
    let name ← pyGet statsData "name" (.jstr "Unknown")
    let level ← pyGet statsData "level" (.jnum 0)
    let strength ← pyGet statsData "strength" (.jnum 0)
    let defense ← pyGet statsData "defense" (.jnum 0)
    let speed ← pyGet statsData "speed" (.jnum 0)
    let dexterity ← pyGet statsData "dexterity" (.jnum 0)
    let updateTime ← pyGet statsData "update_time" (.jstr "Unknown")
    return spyWrap name level strength defense speed dexterity updateTime
      (.jstr "TornStats API")
  -- `if isinstance(data, dict): if all(key in data for key in [...]):`
  match data with
  | .jobj l =>
    if hasKey l "strength" && hasKey l "defense" && hasKey l "speed" &&
        hasKey l "dexterity" then
      return spyWrap ((olookup l "name").getD (.jstr "Unknown"))
        ((olookup l "level").getD (.jnum 0))
        ((olookup l "strength").getD (.jnum 0))
        ((olookup l "defense").getD (.jnum 0))
        ((olookup l "speed").getD (.jnum 0))
        ((olookup l "dexterity").getD (.jnum 0))
        ((olookup l "update_time").getD (.jstr "Unknown"))
        (.jstr "TornStats API")
    else
      return data
  | _ => return data

example : normalize_tornstats_data (.jobj [("spy", .jobj [])]) =
    .ok (.jobj [("spy", .jobj [])]) := rfl

example : normalize_tornstats_data (.jnum 5) = .error () := rfl

example : normalize_tornstats_data (.jobj [("foo", .jnum 1)]) =
    .ok (.jobj [("foo", .jnum 1)]) := rfl

example : normalize_tornstats_data
    (.jobj [("user", .jobj [("name", .jstr "A"), ("strength", .jnum 3)])]) =
    .ok (spyWrap (.jstr "A") (.jnum 0) (.jnum 3) (.jnum 0) (.jnum 0) (.jnum 0)
      (.jstr "Unknown") (.jstr "TornStats API")) := rfl

/-! ## Network model and the fetch strategies -/

/-- Outcome of one HTTP request: a timeout, a connection-level error (both
raise in `aiohttp`), or a response carrying a status code, the body text, and
the result of JSON-parsing the body (`none` models a `json.JSONDecodeError`).
-/
inductive NetResult where
  | timeout
  | connError
  | resp (status : Nat) (text : String) (json : Option JValue)

/-- The network environment: what each requested URL returns. -/
def Env : Type := String → NetResult

/-- The three official endpoint URLs tried by `_fetch_json_api` (lines
95-102). -/
def apiEndpoints (playerId : String) : List String :=
  ["https://www.tornstats.com/api/v1/player/" ++ playerId,
   "https://www.tornstats.com/api/v1/player/" ++ playerId ++ "/full",
   "https://www.tornstats.com/api/v1/battles/" ++ playerId]

/-- All URLs attempted by `_fetch_json_api`: first the bearer-header phase
over the three endpoints, then the same endpoints retried with the API key as
a query parameter (lines 104-152). -/
def apiAttempts (apiKey playerId : String) : List String :=
  apiEndpoints playerId ++
    (apiEndpoints playerId).map (fun e => e ++ "?key=" ++ apiKey)

/-- One iteration of the `_fetch_json_api` endpoint loop: a hit requires
status 200, a JSON-parsable body, Python-truthiness of the parsed value
(`if data:`), and a normaliser that does not raise; every other outcome
(timeout, connection error, non-200 status, non-JSON body, falsy JSON value,
normaliser TypeError) is swallowed by the per-endpoint handlers and the loop
continues. -/
def tryApiUrl (env : Env) (u : String) : Option JValue :=
  match env u with
  | .resp status _ jsonOpt =>
    if status = 200 then
      match jsonOpt with
      | some data =>
        if truthy data then
          match normalize_tornstats_data data with
          | .ok v => some v
          | .error _ => none
        else none
      | none => none
    else none
  | _ => none

/-- Run a per-URL attempt over a URL list, recording every URL requested, and
stopping at the first hit (the `return` inside the loop). -/
def scanUrls (f : String → Option JValue) : List String → Option JValue × List String
  | [] => (none, [])
  | u :: rest =>
    match f u with
    | some v => (some v, [u])
    | none =>
      let r := scanUrls f rest
      (r.1, u :: r.2)

/-- `TornStatsAdapter._fetch_json_api` (lines 88-154).  `if not self.api_key:`
is falsy both for a missing key and for the empty string.  Returns the result
together with the list of URLs requested. -/
def fetch_json_api (apiKey : Option String) (env : Env) (playerId : String) :
    Option JValue × List String :=
  match apiKey with
  | none => (none, [])
  | some k => if k = "" then (none, []) else scanUrls (tryApiUrl env) (apiAttempts k playerId)

/-- Abstraction of the library code used by the HTML strategies: the
BeautifulSoup extraction steps of `_parse_html_profile` /
`_extract_stats_from_div` / `_parse_tornstats_spy_html`, and `json.loads` in
`_extract_json_from_html`.  These are third-party library behaviours, not code
of this repository, so they are kept as opaque parameters of the model; every
theorem below holds for all of them.  A raise inside an extraction step is
absorbed into a miss, matching the per-URL exception handlers around them. -/
structure SoupModel where
  /-- the `data` stat dict extracted from a profile page (methods 1-3) -/
  profileStats : String → List (String × Int)
  /-- the player name found in the page title, if any -/
  profileName : String → Option String
  /-- the level extracted from the page (0 when not found) -/
  profileLevel : String → Nat
  /-- whether the spy page has a `playerStats` / `spy-stats` container -/
  hasSpyContainer : String → Bool
  /-- the stat dict extracted from the spy-stats container -/
  spyStats : String → List (String × Int)
  /-- the name found in the spy page `h1`/`h2`, if any -/
  spyName : String → Option String
  /-- the level extracted from the spy page (0 when not found) -/
  spyLevel : String → Nat
  /-- `json.loads` on the embedded `var playerData = ...` payload
  (`none` models a raised decode error) -/
  jsonLoads : String → Option JValue

/-- Integer lookup with default, for the extracted stat dicts
(`data.get('strength', 0)` etc.). -/
def ilookup : List (String × Int) → String → Int
  | [], _ => 0
  | (k, v) :: rest, key => if k = key then v else ilookup rest key

/-- `sum(data.values())` over an extracted stat dict. -/
def sumVals (l : List (String × Int)) : Int :=
  (l.map (fun p => p.2)).sum

/-- The four profile URLs tried by `_parse_html_profile` (lines 158-165). -/
def htmlUrls (playerId : String) : List String :=
  ["https://www.tornstats.com/profiles/" ++ playerId,
   "https://www.tornstats.com/player.php?id=" ++ playerId,
   "https://www.tornstats.com/profiles.php?XID=" ++ playerId,
   "https://www.tornstats.com/spy.php?id=" ++ playerId]

/-- The spy record built at lines 249-260: `name or f"Player {player_id}"`,
`level or 0`, stats defaulted to 0, fixed `update_time` and `source`. -/
def htmlRecord (playerId : String) (name : Option String) (level : Nat)
    (data : List (String × Int)) : JValue :=
  let nameVal : JValue :=
    match name with
    | some s => if s = "" then .jstr ("Player " ++ playerId) else .jstr s
    | none => .jstr ("Player " ++ playerId)
  spyWrap nameVal (.jnum level) (.jnum (ilookup data "strength"))
    (.jnum (ilookup data "defense")) (.jnum (ilookup data "speed"))
    (.jnum (ilookup data "dexterity")) (.jstr "HTML Extraction") (.jstr "HTML")

/-- One iteration of the `_parse_html_profile` URL loop: on a 200 response the
stat dict is extracted and the record returned only `if data and
sum(data.values()) > 0`; everything else is a miss (logged and swallowed). -/
def tryHtmlUrl (S : SoupModel) (env : Env) (playerId u : String) : Option JValue :=
  match env u with
  | .resp status text _ =>
    if status = 200 then
      let data := S.profileStats text
      if data ≠ [] ∧ 0 < sumVals data then
        some (htmlRecord playerId (S.profileName text) (S.profileLevel text) data)
      else none
    else none
  | _ => none

/-- `TornStatsAdapter._parse_html_profile` (lines 156-267), with the soup
extraction abstracted by `S`. -/
def parse_html_profile (S : SoupModel) (env : Env) (playerId : String) :
    Option JValue × List String :=
  scanUrls (tryHtmlUrl S env playerId) (htmlUrls playerId)

/-- `TornStatsAdapter._parse_tornstats_spy_html` (lines 356-394): `none` when
no stats container is found, otherwise a full spy record with stats defaulted
to 0 and `source` set to `"HTML Spy"`. -/
def parse_tornstats_spy_html (S : SoupModel) (text playerId : String) : Option JValue :=
  if S.hasSpyContainer text then
    let stats := S.spyStats text
    let nameVal : JValue :=
      match S.spyName text with
      | some s => .jstr s
      | none => .jstr ("Player " ++ playerId)
    some (spyWrap nameVal (.jnum (S.spyLevel text)) (.jnum (ilookup stats "strength"))
      (.jnum (ilookup stats "defense")) (.jnum (ilookup stats "speed"))
      (.jnum (ilookup stats "dexterity")) (.jstr "HTML Extraction") (.jstr "HTML Spy"))
  else none

/-- `TornStatsAdapter._extract_json_from_html` (lines 341-354): take the text
after the first `var playerData = ` marker, up to the next `;` (a missing
marker or `;` , a JSON decode error, or a normaliser raise all yield `None`
via the surrounding handler). -/
def extract_json_from_html (S : SoupModel) (html : String) : Option JValue :=
  match html.splitOn "var playerData = " with
  | _ :: rest₀ :: restTail =>
    let after := String.intercalate "var playerData = " (rest₀ :: restTail)
    match after.splitOn ";" with
    | seg :: _ :: _ =>
      match S.jsonLoads seg.trim with
      | some d =>
        match normalize_tornstats_data d with
        | .ok v => some v
        | .error _ => none
      | none => none
    | _ => none
  | _ => none

/-- `TornStatsAdapter._try_authenticated_access` (lines 301-339): a login
request (any status proceeds, `allow_redirects=False` and no status check),
then the spy page; on a 200 spy page, embedded JSON is preferred (`if
json_data:` — a falsy extraction falls back to HTML parsing); all exceptions
are caught at line 336 and mapped to `None`. -/
def try_authenticated_access (S : SoupModel) (apiKey : Option String) (env : Env)
    (playerId : String) : Option JValue × List String :=
  match apiKey with
  | none => (none, [])
  | some k =>
    if k = "" then (none, [])
    else
      let loginUrl := "https://www.tornstats.com/login.php?tornstats_api=" ++ k
      let spyUrl := "https://www.tornstats.com/spy.php?id=" ++ playerId
      match env loginUrl with
      | .resp _ _ _ =>
        match env spyUrl with
        | .resp 200 text _ =>
          match extract_json_from_html S text with
          | some j =>
            if truthy j then (some j, [loginUrl, spyUrl])
            else (parse_tornstats_spy_html S text playerId, [loginUrl, spyUrl])
          | none => (parse_tornstats_spy_html S text playerId, [loginUrl, spyUrl])
        | .resp _ _ _ => (none, [loginUrl, spyUrl])
        | _ => (none, [loginUrl, spyUrl])
      | _ => (none, [loginUrl])

/-! ## The cache and `get_player_data` -/

/-- One cache entry: `{'data': ..., 'timestamp': ...}` (lines 55-58). -/
structure CEntry where
  data : JValue
  timestamp : ℚ

/-- Lookup in the `self.cache` dict model. -/
def cacheLookup : List (String × CEntry) → String → Option CEntry
  | [], _ => none
  | (k, e) :: rest, key => if k = key then some e else cacheLookup rest key

/-- `del self.cache[key]`. -/
def cacheErase (c : List (String × CEntry)) (key : String) : List (String × CEntry) :=
  c.filter (fun p => p.1 ≠ key)

/-- `self.cache[key] = entry` (dict assignment overwrites). -/
def cacheSet (c : List (String × CEntry)) (key : String) (e : CEntry) :
    List (String × CEntry) :=
  (key, e) :: cacheErase c key

/-- `TornStatsAdapter.get_from_cache` (lines 455-465): a live entry (age
strictly below the 3600-second `cache_expiry`) is returned; an expired entry
is deleted on this read and `None` returned.  The possibly-mutated cache is
returned alongside. -/
def get_from_cache (c : List (String × CEntry)) (now : ℚ) (key : String) :
    Option JValue × List (String × CEntry) :=
  match cacheLookup c key with
  | some e => if now - e.timestamp < 3600 then (some e.data, c) else (none, cacheErase c key)
  | none => (none, c)

/-- Result of one `get_player_data` call: the returned value, the cache after
the call, and the list of URLs requested during the call. -/
def FetchOutcome : Type := Option JValue × List (String × CEntry) × List String

/-- Third strategy step of `get_player_data` (lines 71-82): authenticated
access; a truthy result is cached and returned, otherwise `None`. -/
def authStep (S : SoupModel) (apiKey : Option String) (env : Env) (now : ℚ)
    (c : List (String × CEntry)) (playerId cacheKey : String) (lpre : List String) :
    FetchOutcome :=
  let r := try_authenticated_access S apiKey env playerId
  match r.1 with
  | some v =>
    if truthy v then (some v, cacheSet c cacheKey ⟨v, now⟩, lpre ++ r.2)
    else (none, c, lpre ++ r.2)
  | none => (none, c, lpre ++ r.2)

/-- Second strategy step of `get_player_data` (lines 61-69): HTML profile
parsing; a truthy result is cached and returned, otherwise fall through. -/
def htmlStep (S : SoupModel) (apiKey : Option String) (env : Env) (now : ℚ)
    (c : List (String × CEntry)) (playerId cacheKey : String) (lpre : List String) :
    FetchOutcome :=
  let r := parse_html_profile S env playerId
  match r.1 with
  | some v =>
    if truthy v then (some v, cacheSet c cacheKey ⟨v, now⟩, lpre ++ r.2)
    else authStep S apiKey env now c playerId cacheKey (lpre ++ r.2)
  | none => authStep S apiKey env now c playerId cacheKey (lpre ++ r.2)

/-- First strategy step of `get_player_data` (lines 51-59): the JSON API;
a truthy result is cached and returned, otherwise fall through. -/
def jsonStep (S : SoupModel) (apiKey : Option String) (env : Env) (now : ℚ)
    (c : List (String × CEntry)) (playerId cacheKey : String) : FetchOutcome :=
  let r := fetch_json_api apiKey env playerId
  match r.1 with
  | some v =>
    if truthy v then (some v, cacheSet c cacheKey ⟨v, now⟩, r.2)
    else htmlStep S apiKey env now c playerId cacheKey r.2
  | none => htmlStep S apiKey env now c playerId cacheKey r.2

/-- `TornStatsAdapter.get_player_data` (lines 39-86): check the cache under
`"player_" + player_id` (`if cached_data:` is a truthiness test), then run the
three strategies in order; exceptions inside each strategy are already caught
at the boundaries modelled above, and the final handler (lines 84-86) maps any
remaining fault to `None`, so the model is a total function into
`Option JValue`. -/
def get_player_data (S : SoupModel) (apiKey : Option String) (env : Env) (now : ℚ)
    (cache : List (String × CEntry)) (playerId : String) : FetchOutcome :=
  let cacheKey := "player_" ++ playerId
  let gc := get_from_cache cache now cacheKey
  match gc.1 with
  | some d =>
    if truthy d then (some d, gc.2, [])
    else jsonStep S apiKey env now gc.2 playerId cacheKey
  | none => jsonStep S apiKey env now gc.2 playerId cacheKey

/-- A trivial soup model: every extraction fails. -/
def trivSoup : SoupModel where
  profileStats _ := []
  profileName _ := none
  profileLevel _ := 0
  hasSpyContainer _ := false
  spyStats _ := []
  spyName _ := none
  spyLevel _ := 0
  jsonLoads _ := none

example :
    (get_player_data trivSoup none (fun _ => .connError) 0 [] "1").1 = none := rfl

example :
    (get_player_data trivSoup none (fun _ => .connError) 0 [] "1").2.2 =
      htmlUrls "1" := rfl

/-! ## Stats estimators

Two versions exist in the repository: `src/bot_package/src/utils/stats_estimator.py`
(namespace `BotPackage`) and `src/backup_utils/stats_estimator.py`
(namespace `BackupUtils`).  Python floats are idealised as exact rationals /
reals; Python `round` is modelled by Mathlib `round` (they differ only on
exact half-way points, which none of the statements below touch). -/

/-- Generic first-match association-list lookup (dict lookup). -/
def alookup {α : Type} : List (String × α) → String → Option α
  | [], _ => none
  | (k, v) :: rest, key => if k = key then some v else alookup rest key

/-- Overwriting dict assignment. -/
def aset {α : Type} (l : List (String × α)) (key : String) (v : α) :
    List (String × α) :=
  (key, v) :: l.filter (fun p => p.1 ≠ key)

/-- Python `int()` on an exact numeric value: truncation toward zero. -/
def pyInt (q : ℚ) : ℤ := if q < 0 then ⌈q⌉ else ⌊q⌋

namespace BotPackage

/-- The record written by `add_spy_data` (bot_package stats_estimator.py
50-58): the four stats, their total, `time.time()` and a formatted date. -/
structure SpyRecord where
  strength : ℚ
  speed : ℚ
  dexterity : ℚ
  defense : ℚ
  total : ℚ
  timestamp : ℚ
  date : String

/-- `add_spy_data` (lines 42-61): stores the record under `str(player_id)`
with `total = strength + speed + dexterity + defense`, and returns it.  The
spies dict is threaded explicitly (the file round-trip is the identity on the
stored dict). -/
def add_spy_data (spies : List (String × SpyRecord)) (player_id : ℤ)
    (strength speed dexterity defense : ℚ) (now : ℚ) (dateStr : String) :
    List (String × SpyRecord) × SpyRecord :=
  let r : SpyRecord :=
    ⟨strength, speed, dexterity, defense,
     strength + speed + dexterity + defense, now, dateStr⟩
  (aset spies (toString player_id) r, r)

/-- `estimate_primary_stat` (lines 63-83).  There is no `None` guard in this
version: `damage_per_turn` is forced to 0 when `turns <= 0`, and the
power-law estimate is rounded to the nearest thousand.  A negative
`damage_per_turn` makes Python's `** 0.65` produce a complex number and the
final `round` raise a TypeError, modelled as `.error ()`. -/
noncomputable def estimate_primary_stat (damage turns opponent_primary : ℝ) :
    Except Unit ℝ :=
  let damage_per_turn := if 0 < turns then damage / turns else 0
  if damage_per_turn / 240 < 0 then .error ()
  else
    .ok (((round ((opponent_primary * ((damage_per_turn / 240) ^ (0.65 : ℝ))) / 1000) : ℤ)
      : ℝ) * 1000)

/-- `get_stat_confidence` (lines 104-123): `"none"` without a timestamp,
otherwise tiered by age in days.  Dict values are modelled as rationals. -/
def get_stat_confidence (now : ℚ) (spy_data : Option (List (String × ℚ))) : String :=
  match spy_data with
  | none => "none"
  | some l =>
    match alookup l "timestamp" with
    | none => "none"
    | some ts =>
      if l = [] then "none"
      else
        let age_in_days := (now - ts) / 86400
        if age_in_days < 7 then "high"
        else if age_in_days < 30 then "medium"
        else "low"

/-- The five recommendation tiers (lines 144-154). -/
def recommend_text (ratio : ℚ) : String :=
  if 3/2 < ratio then "Highly favorable - You significantly outmatch this opponent"
  else if 11/10 < ratio then "Favorable - You have an advantage"
  else if 9/10 < ratio then "Even match - Battle could go either way"
  else if 7/10 < ratio then "Unfavorable - Opponent has an advantage"
  else "Highly unfavorable - Opponent significantly outmatches you"

/-- `get_recommendation` (lines 125-154): `enemy_stats` may be `None` or an
empty dict (both falsy); totals default to 0 via `.get("total", 0)`; the
ratio is computed only after both totals are known non-zero. -/
def get_recommendation (now : ℚ) (your_stats : List (String × ℚ))
    (enemy_stats : Option (List (String × ℚ))) : String × String :=
  match enemy_stats with
  | none => ("No data available to make a recommendation", "none")
  | some e =>
    if e = [] then ("No data available to make a recommendation", "none")
    else
      let your_total := (alookup your_stats "total").getD 0
      let enemy_total := (alookup e "total").getD 0
      if your_total = 0 ∨ enemy_total = 0 then
        ("Insufficient data for recommendation", "none")
      else
        (recommend_text (your_total / enemy_total), get_stat_confidence now (some e))

end BotPackage

namespace BackupUtils

/-- The record written by `add_spy_data` (backup_utils stats_estimator.py
46-53): `int()`-converted stats, their total, and an ISO date string.
The Python keys are `str`/`spd`/`dex`/`def`; `def` is a Lean keyword, so the
field is named `defStat`. -/
structure SpyRecord where
  str : ℤ
  spd : ℤ
  dex : ℤ
  defStat : ℤ
  total : ℤ
  timestamp : String

/-- `add_spy_data` (lines 41-56). -/
def add_spy_data (spy_data : List (String × SpyRecord)) (player_id : ℤ)
    (strength speed dexterity defense : ℚ) (isoNow : String) :
    List (String × SpyRecord) × SpyRecord :=
  let r : SpyRecord :=
    ⟨pyInt strength, pyInt speed, pyInt dexterity, pyInt defense,
     pyInt strength + pyInt speed + pyInt dexterity + pyInt defense, isoNow⟩
  (aset spy_data (toString player_id) r, r)

/-- `estimate_primary_stat` (lines 63-76): `None` when `turns <= 0 or
damage <= 0`, otherwise `(my_primary_stat * 1000) / (damage / turns)` floored
to the thousand below. -/
def estimate_primary_stat (damage turns my_primary_stat : ℚ) : Option ℤ :=
  if turns ≤ 0 ∨ damage ≤ 0 then none
  else some (⌊my_primary_stat * 1000 / (damage / turns) / 1000⌋ * 1000)

/-- The three recommendation tiers (lines 146-153). -/
def recommend_text (ratio : ℚ) : String :=
  if 3/2 < ratio then "safe"
  else if 4/5 < ratio then "caution"
  else "avoid"

/-- `get_recommendation` (lines 138-153): totals are numbers (or `None`);
`not enemy_total_stats or not my_total_stats` catches `None` and 0, and the
ratio is computed only past that guard. -/
def get_recommendation (my_total_stats enemy_total_stats : Option ℚ) : String :=
  match enemy_total_stats, my_total_stats with
  | some e, some m => if e = 0 ∨ m = 0 then "unknown" else recommend_text (m / e)
  | _, _ => "unknown"

end BackupUtils

example : BackupUtils.estimate_primary_stat 0 5 1000 = none := rfl

example : BackupUtils.estimate_primary_stat 1200 5 1000 = some 4000 := by
  norm_num [BackupUtils.estimate_primary_stat]

/-! ## Helper lemmas -/

theorem hasKey_of_olookup {l : List (String × JValue)} {k : String} {v : JValue}
    (h : olookup l k = some v) : hasKey l k = true := by
  induction l with
  | nil => simp [olookup] at h
  | cons p rest ih =>
    obtain ⟨k', v'⟩ := p
    by_cases hk : k' = k
    · simp [hasKey, hk]
    · simp only [olookup, if_neg hk] at h
      simp [hasKey, hk, ih h]

theorem olookup_eq_none_of_hasKey_false {l : List (String × JValue)} {k : String}
    (h : hasKey l k = false) : olookup l k = none := by
  induction l with
  | nil => rfl
  | cons p rest ih =>
    obtain ⟨k', v'⟩ := p
    simp only [hasKey, Bool.or_eq_false_iff, decide_eq_false_iff_not] at h
    simp [olookup, h.1, ih h.2]

theorem olookup_isSome_of_hasKey {l : List (String × JValue)} {k : String}
    (h : hasKey l k = true) : ∃ v, olookup l k = some v := by
  induction l with
  | nil => simp [hasKey] at h
  | cons p rest ih =>
    obtain ⟨k', v'⟩ := p
    by_cases hk : k' = k
    · exact ⟨v', by simp [olookup, hk]⟩
    · simp only [hasKey, Bool.or_eq_true, decide_eq_true_eq, hk, false_or] at h
      obtain ⟨v, hv⟩ := ih h
      exact ⟨v, by simp [olookup, hk, hv]⟩

/-- Pass-through branch of the normaliser: any dict containing `'spy'`. -/
theorem normalize_spy_passthrough {l : List (String × JValue)}
    (h : hasKey l "spy" = true) :
    normalize_tornstats_data (.jobj l) = .ok (.jobj l) := by
  simp [normalize_tornstats_data, pyIn, h, Bind.bind, Except.bind, pure, Except.pure]

/-- All eight keys the spec requires under `'spy'`. -/
def hasAllSpyKeys (v : JValue) : Bool :=
  match v with
  | .jobj l =>
    match olookup l "spy" with
    | some (.jobj m) =>
      hasKey m "name" && hasKey m "level" && hasKey m "strength" && hasKey m "defense" &&
      hasKey m "speed" && hasKey m "dexterity" && hasKey m "update_time" && hasKey m "source"
    | _ => false
  | _ => false

theorem hasAllSpyKeys_spyWrap (n l s d sp dx u src : JValue) :
    hasAllSpyKeys (spyWrap n l s d sp dx u src) = true := rfl

/-- User-wrapped branch of the normaliser. -/
theorem normalize_user_branch {l inner : List (String × JValue)}
    (h1 : hasKey l "spy" = false) (h2 : olookup l "user" = some (.jobj inner)) :
    normalize_tornstats_data (.jobj l) =
      .ok (spyWrap ((olookup inner "name").getD (.jstr "Unknown"))
        ((olookup inner "level").getD (.jnum 0))
        ((olookup inner "strength").getD (.jnum 0))
        ((olookup inner "defense").getD (.jnum 0))
        ((olookup inner "speed").getD (.jnum 0))
        ((olookup inner "dexterity").getD (.jnum 0))
        ((olookup inner "update_time").getD (.jstr "Unknown"))
        (.jstr "TornStats API")) := by
  have hu : hasKey l "user" = true := hasKey_of_olookup h2
  simp [normalize_tornstats_data, pyIn, pySubscript, pyGet, h1, h2, hu,
    Bind.bind, Except.bind, pure, Except.pure, Functor.map, Except.map, spyWrap]

/-- Status/stats branch of the normaliser. -/
theorem normalize_stats_branch {l inner : List (String × JValue)}
    (h1 : hasKey l "spy" = false) (h2 : hasKey l "user" = false)
    (h3 : olookup l "status" = some (.jstr "ok"))
    (h4 : olookup l "stats" = some (.jobj inner)) :
    normalize_tornstats_data (.jobj l) =
      .ok (spyWrap ((olookup inner "name").getD (.jstr "Unknown"))
        ((olookup inner "level").getD (.jnum 0))
        ((olookup inner "strength").getD (.jnum 0))
        ((olookup inner "defense").getD (.jnum 0))
        ((olookup inner "speed").getD (.jnum 0))
        ((olookup inner "dexterity").getD (.jnum 0))
        ((olookup inner "update_time").getD (.jstr "Unknown"))
        (.jstr "TornStats API")) := by
  have hs : hasKey l "status" = true := hasKey_of_olookup h3
  have hst : hasKey l "stats" = true := hasKey_of_olookup h4
  simp [normalize_tornstats_data, pyIn, pySubscript, pyGet, isStrEq, h1, h2, h3, h4, hs, hst,
    Bind.bind, Except.bind, pure, Except.pure, Functor.map, Except.map, spyWrap]

/-- Bare-stats branch of the normaliser. -/
theorem normalize_bare_branch {l : List (String × JValue)}
    (h1 : hasKey l "spy" = false) (h2 : hasKey l "user" = false)
    (h3 : hasKey l "status" = false)
    (h4 : hasKey l "strength" = true) (h5 : hasKey l "defense" = true)
    (h6 : hasKey l "speed" = true) (h7 : hasKey l "dexterity" = true) :
    normalize_tornstats_data (.jobj l) =
      .ok (spyWrap ((olookup l "name").getD (.jstr "Unknown"))
        ((olookup l "level").getD (.jnum 0))
        ((olookup l "strength").getD (.jnum 0))
        ((olookup l "defense").getD (.jnum 0))
        ((olookup l "speed").getD (.jnum 0))
        ((olookup l "dexterity").getD (.jnum 0))
        ((olookup l "update_time").getD (.jstr "Unknown"))
        (.jstr "TornStats API")) := by
  simp [normalize_tornstats_data, pyIn, pySubscript, pyGet, h1, h2, h3, h4, h5, h6, h7,
    Bind.bind, Except.bind, pure, Except.pure, Functor.map, Except.map, spyWrap]

/-- `data['status'] == 'ok' and 'stats' in data` as one Boolean. -/
def statusOkStats (l : List (String × JValue)) : Bool :=
  match olookup l "status" with
  | some v => isStrEq v "ok" && hasKey l "stats"
  | none => false

/-- Fall-through branch of the normaliser: a dict matching none of the four
recognised shapes is returned unchanged. -/
theorem normalize_unrecognized_dict {l : List (String × JValue)}
    (h1 : hasKey l "spy" = false) (h2 : hasKey l "user" = false)
    (h3 : statusOkStats l = false)
    (h4 : hasKey l "strength" = false ∨ hasKey l "defense" = false ∨
      hasKey l "speed" = false ∨ hasKey l "dexterity" = false) :
    normalize_tornstats_data (.jobj l) = .ok (.jobj l) := by
  cases hstat : hasKey l "status" with
  | false =>
    have hnone := olookup_eq_none_of_hasKey_false hstat
    rcases h4 with h | h | h | h <;>
      simp [normalize_tornstats_data, pyIn, pySubscript, pyGet, h1, h2, hstat, hnone, h,
        Bind.bind, Except.bind, pure, Except.pure, Functor.map, Except.map]
  | true =>
    obtain ⟨v, hv⟩ := olookup_isSome_of_hasKey hstat
    rw [statusOkStats, hv, Bool.and_eq_false_iff] at h3
    rcases h3 with h3 | h3 <;>
      rcases h4 with h | h | h | h <;>
        simp [normalize_tornstats_data, pyIn, pySubscript, pyGet, h1, h2, hstat, hv, h3, h,
          Bind.bind, Except.bind, pure, Except.pure, Functor.map, Except.map]

theorem scanUrls_cons_hit {f : String → Option JValue} {u : String} {v : JValue}
    {rest : List String} (h : f u = some v) :
    scanUrls f (u :: rest) = (some v, [u]) := by
  simp [scanUrls, h]

theorem scanUrls_cons_miss {f : String → Option JValue} {u : String}
    {rest : List String} (h : f u = none) :
    scanUrls f (u :: rest) = ((scanUrls f rest).1, u :: (scanUrls f rest).2) := by
  simp [scanUrls, h]

/-- The loop stops at the first hit: earlier misses only extend the request
log, and later URLs are never requested. -/
theorem scanUrls_firstHit {f : String → Option JValue} :
    ∀ (l₁ : List String) (u : String) (l₂ : List String) (v : JValue),
      (∀ x ∈ l₁, f x = none) → f u = some v →
      scanUrls f (l₁ ++ u :: l₂) = (some v, l₁ ++ [u])
  | [], u, l₂, v, _, hu => by simp [scanUrls_cons_hit hu]
  | x :: l₁, u, l₂, v, hmiss, hu => by
    have hx : f x = none := hmiss x (List.mem_cons_self x l₁)
    have ih := scanUrls_firstHit l₁ u l₂ v (fun y hy => hmiss y (List.mem_cons_of_mem x hy)) hu
    simp [scanUrls_cons_miss hx, ih]

theorem scanUrls_log_ne_nil {f : String → Option JValue} {l : List String}
    (h : l ≠ []) : (scanUrls f l).2 ≠ [] := by
  cases l with
  | nil => exact absurd rfl h
  | cons u rest =>
    cases hu : f u with
    | some v => simp [scanUrls_cons_hit hu]
    | none => simp [scanUrls_cons_miss hu]

theorem authStep_log (S : SoupModel) (apiKey : Option String) (env : Env) (now : ℚ)
    (c : List (String × CEntry)) (playerId cacheKey : String) (lpre : List String) :
    (authStep S apiKey env now c playerId cacheKey lpre).2.2 =
      lpre ++ (try_authenticated_access S apiKey env playerId).2 := by
  unfold authStep
  cases h : (try_authenticated_access S apiKey env playerId).1 with
  | some v => by_cases hv : truthy v <;> simp [h, hv]
  | none => simp [h]

theorem htmlStep_log_ne_nil (S : SoupModel) (apiKey : Option String) (env : Env) (now : ℚ)
    (c : List (String × CEntry)) (playerId cacheKey : String) (lpre : List String) :
    (htmlStep S apiKey env now c playerId cacheKey lpre).2.2 ≠ [] := by
  have hp : (parse_html_profile S env playerId).2 ≠ [] := by
    apply scanUrls_log_ne_nil
    simp [htmlUrls]
  unfold htmlStep
  cases h : (parse_html_profile S env playerId).1 with
  | some v =>
    by_cases hv : truthy v
    · simp [h, hv, List.append_eq_nil]
      intro _ h2
      exact hp h2
    · simp [h, hv, authStep_log, List.append_eq_nil]
      intro _ h2 _
      exact hp h2
  | none =>
    simp [h, authStep_log, List.append_eq_nil]
    intro _ h2 _
    exact hp h2

theorem jsonStep_log_ne_nil (S : SoupModel) (apiKey : Option String) (env : Env) (now : ℚ)
    (c : List (String × CEntry)) (playerId cacheKey : String) :
    (jsonStep S apiKey env now c playerId cacheKey).2.2 ≠ [] := by
  unfold jsonStep
  cases h : (fetch_json_api apiKey env playerId).1 with
  | some v =>
    by_cases hv : truthy v
    · simp only [h, hv, if_true]
      have : (fetch_json_api apiKey env playerId).2 ≠ [] := by
        cases apiKey with
        | none => simp [fetch_json_api] at h
        | some k =>
          by_cases hk : k = ""
          · simp [fetch_json_api, hk] at h
          · unfold fetch_json_api
            simp only [hk, if_false]
            apply scanUrls_log_ne_nil
            simp [apiAttempts, apiEndpoints]
      simpa using this
    · simp only [h]
      rw [if_neg hv]
      exact htmlStep_log_ne_nil S apiKey env now c playerId cacheKey
        (fetch_json_api apiKey env playerId).2
  | none =>
    simp only [h]
    exact htmlStep_log_ne_nil S apiKey env now c playerId cacheKey
      (fetch_json_api apiKey env playerId).2

theorem cacheLookup_set (c : List (String × CEntry)) (k : String) (e : CEntry) :
    cacheLookup (cacheSet c k e) k = some e := by
  simp [cacheSet, cacheLookup]

theorem authStep_some {S : SoupModel} {apiKey : Option String} {env : Env} {now : ℚ}
    {c : List (String × CEntry)} {playerId cacheKey : String} {lpre log : List String}
    {r : JValue} {cc : List (String × CEntry)}
    (h : authStep S apiKey env now c playerId cacheKey lpre = (some r, cc, log)) :
    cc = cacheSet c cacheKey ⟨r, now⟩ ∧ truthy r = true := by
  unfold authStep at h
  cases ha : (try_authenticated_access S apiKey env playerId).1 with
  | some v =>
    simp only [ha] at h
    by_cases hv : truthy v
    · simp only [hv, if_true] at h
      injection h with h1 h23
      injection h23 with h2 h3
      injection h1 with hvr
      subst hvr
      exact ⟨h2.symm, hv⟩
    · rw [if_neg hv] at h
      injection h with h1 h23
      exact Option.noConfusion h1
  | none =>
    simp only [ha] at h
    injection h with h1 h23
    exact Option.noConfusion h1

theorem htmlStep_some {S : SoupModel} {apiKey : Option String} {env : Env} {now : ℚ}
    {c : List (String × CEntry)} {playerId cacheKey : String} {lpre log : List String}
    {r : JValue} {cc : List (String × CEntry)}
    (h : htmlStep S apiKey env now c playerId cacheKey lpre = (some r, cc, log)) :
    cc = cacheSet c cacheKey ⟨r, now⟩ ∧ truthy r = true := by
  unfold htmlStep at h
  cases hp : (parse_html_profile S env playerId).1 with
  | some v =>
    simp only [hp] at h
    by_cases hv : truthy v
    · simp only [hv, if_true] at h
      injection h with h1 h23
      injection h23 with h2 h3
      injection h1 with hvr
      subst hvr
      exact ⟨h2.symm, hv⟩
    · rw [if_neg hv] at h
      exact authStep_some h
  | none =>
    simp only [hp] at h
    exact authStep_some h

theorem jsonStep_some {S : SoupModel} {apiKey : Option String} {env : Env} {now : ℚ}
    {c : List (String × CEntry)} {playerId cacheKey : String} {log : List String}
    {r : JValue} {cc : List (String × CEntry)}
    (h : jsonStep S apiKey env now c playerId cacheKey = (some r, cc, log)) :
    cc = cacheSet c cacheKey ⟨r, now⟩ ∧ truthy r = true := by
  unfold jsonStep at h
  cases hj : (fetch_json_api apiKey env playerId).1 with
  | some v =>
    simp only [hj] at h
    by_cases hv : truthy v
    · simp only [hv, if_true] at h
      injection h with h1 h23
      injection h23 with h2 h3
      injection h1 with hvr
      subst hvr
      exact ⟨h2.symm, hv⟩
    · rw [if_neg hv] at h
      exact htmlStep_some h
  | none =>
    simp only [hj] at h
    exact htmlStep_some h

/-- On a cache miss, `get_player_data` runs the strategy chain on the
(possibly expiry-pruned) cache. -/
theorem get_player_data_miss {S : SoupModel} {apiKey : Option String} {env : Env}
    {now : ℚ} {c : List (String × CEntry)} {playerId : String}
    (h : (get_from_cache c now ("player_" ++ playerId)).1 = none) :
    get_player_data S apiKey env now c playerId =
      jsonStep S apiKey env now (get_from_cache c now ("player_" ++ playerId)).2
        playerId ("player_" ++ playerId) := by
  unfold get_player_data
  simp only [h]

/-- On a live, truthy cache hit, `get_player_data` answers from the cache
with no requests. -/
theorem get_player_data_hit {S : SoupModel} {apiKey : Option String} {env : Env}
    {now : ℚ} {c : List (String × CEntry)} {playerId : String} {d : JValue}
    (h : (get_from_cache c now ("player_" ++ playerId)).1 = some d)
    (hd : truthy d = true) :
    get_player_data S apiKey env now c playerId =
      (some d, (get_from_cache c now ("player_" ++ playerId)).2, []) := by
  unfold get_player_data
  simp only [h, hd, if_true]

theorem jsonStep_truthy {S : SoupModel} {apiKey : Option String} {env : Env} {now : ℚ}
    {c : List (String × CEntry)} {playerId cacheKey : String} {v : JValue}
    (h : (jsonStep S apiKey env now c playerId cacheKey).1 = some v) :
    truthy v = true := by
  have h2 : jsonStep S apiKey env now c playerId cacheKey =
      (some v, (jsonStep S apiKey env now c playerId cacheKey).2.1,
        (jsonStep S apiKey env now c playerId cacheKey).2.2) := by
    rw [← h]
    rfl
  exact (jsonStep_some h2).2

/-! ## The claims -/

/-- C8.  Cache expiry is lazy and strict: `get_from_cache` returns the stored
data exactly for a live entry (`now - storedAt < 3600`); an expired entry is
deleted by the read, which returns `None`; and a `get_player_data` call whose
cache entry has expired performs at least one network request. -/
theorem C8_cache_expiry_lazy_strict :
    (∀ (c : List (String × CEntry)) (now : ℚ) (key : String) (e : CEntry),
      cacheLookup c key = some e → now - e.timestamp < 3600 →
      get_from_cache c now key = (some e.data, c)) ∧
    (∀ (c : List (String × CEntry)) (now : ℚ) (key : String) (e : CEntry),
      cacheLookup c key = some e → 3600 ≤ now - e.timestamp →
      get_from_cache c now key = (none, cacheErase c key)) ∧
    (∀ (c : List (String × CEntry)) (now : ℚ) (key : String),
      cacheLookup c key = none → get_from_cache c now key = (none, c)) ∧
    (∀ (S : SoupModel) (apiKey : Option String) (env : Env) (now : ℚ)
        (c : List (String × CEntry)) (playerId : String) (e : CEntry),
      cacheLookup c ("player_" ++ playerId) = some e → 3600 ≤ now - e.timestamp →
      (get_player_data S apiKey env now c playerId).2.2 ≠ []) := by
  refine ⟨?_, ?_, ?_, ?_⟩
  · intro c now key e he hlt
    simp only [get_from_cache, he]
    rw [if_pos hlt]
  · intro c now key e he hge
    simp only [get_from_cache, he]
    rw [if_neg (not_lt.mpr hge)]
  · intro c now key h
    simp only [get_from_cache, h]
  · intro S apiKey env now c playerId e he hge
    have hmiss : (get_from_cache c now ("player_" ++ playerId)).1 = none := by
      simp only [get_from_cache, he]
      rw [if_neg (not_lt.mpr hge)]
    rw [get_player_data_miss hmiss]
    exact jsonStep_log_ne_nil S apiKey env now
      (get_from_cache c now ("player_" ++ playerId)).2 playerId ("player_" ++ playerId)

theorem C8_cache_expiry_lazy_strict_witness :
    get_from_cache [("player_1", ⟨JValue.jobj [("a", JValue.jnum 1)], 0⟩)] 100 "player_1" =
      (some (JValue.jobj [("a", JValue.jnum 1)]),
        [("player_1", ⟨JValue.jobj [("a", JValue.jnum 1)], 0⟩)]) ∧
    get_from_cache [("player_1", ⟨JValue.jobj [("a", JValue.jnum 1)], 0⟩)] 3600 "player_1" =
      (none, cacheErase [("player_1", ⟨JValue.jobj [("a", JValue.jnum 1)], 0⟩)] "player_1") ∧
    get_from_cache [] 0 "player_1" = (none, []) ∧
    (get_player_data trivSoup none (fun _ => NetResult.connError) 3600
      [("player_1", ⟨JValue.jobj [("a", JValue.jnum 1)], 0⟩)] "1").2.2 ≠ [] :=
  ⟨C8_cache_expiry_lazy_strict.1 [("player_1", ⟨JValue.jobj [("a", JValue.jnum 1)], 0⟩)]
     100 "player_1" ⟨JValue.jobj [("a", JValue.jnum 1)], 0⟩ rfl (by norm_num),
   C8_cache_expiry_lazy_strict.2.1 [("player_1", ⟨JValue.jobj [("a", JValue.jnum 1)], 0⟩)]
     3600 "player_1" ⟨JValue.jobj [("a", JValue.jnum 1)], 0⟩ rfl (by norm_num),
   C8_cache_expiry_lazy_strict.2.2.1 [] 0 "player_1" rfl,
   C8_cache_expiry_lazy_strict.2.2.2 trivSoup none (fun _ => NetResult.connError) 3600
     [("player_1", ⟨JValue.jobj [("a", JValue.jnum 1)], 0⟩)] "1"
     ⟨JValue.jobj [("a", JValue.jnum 1)], 0⟩ rfl (by norm_num)⟩

/-- C3 (amended).  When the first call is a genuine cache miss (so the value
it returns was fetched and stored with the first call's own timestamp), a
second call strictly less than 3600 seconds later is answered entirely from
the cache entry stored under `"player_" + playerId`: identical data, the same
cache, and zero network requests. -/
theorem C3_amended_idempotent_after_fresh_store {S : SoupModel}
    {apiKey : Option String} {env : Env} {t tLater : ℚ}
    {c c₁ : List (String × CEntry)} {playerId : String} {r : JValue}
    {log : List String}
    (hmiss : (get_from_cache c t ("player_" ++ playerId)).1 = none)
    (h1 : get_player_data S apiKey env t c playerId = (some r, c₁, log))
    (hlt : tLater - t < 3600) :
    get_player_data S apiKey env tLater c₁ playerId = (some r, c₁, []) := by
  rw [get_player_data_miss hmiss] at h1
  obtain ⟨hc, htr⟩ := jsonStep_some h1
  have hg : get_from_cache c₁ tLater ("player_" ++ playerId) = (some r, c₁) := by
    rw [hc]
    simp only [get_from_cache, cacheLookup_set]
    rw [if_pos hlt]
  have h1' : (get_from_cache c₁ tLater ("player_" ++ playerId)).1 = some r := by rw [hg]
  rw [get_player_data_hit h1' htr, hg]

/-- C3 (counterexample to the claim as stated): the first call is served from
a cache entry that is 3599 seconds old and returns its data; the second call
only 2 seconds later — well inside the claimed 3600-second window after the
first call — finds the entry expired, returns `None` (not the same data), and
performs the four HTML network requests. -/
theorem C3_counterexample_near_expiry_cache_hit :
    (get_player_data trivSoup none (fun _ => NetResult.connError) 3599
        [("player_1", ⟨JValue.jobj [("a", JValue.jnum 1)], 0⟩)] "1").1 =
      some (JValue.jobj [("a", JValue.jnum 1)]) ∧
    ((3601 : ℚ) - 3599 < 3600) ∧
    (get_player_data trivSoup none (fun _ => NetResult.connError) 3601
        [("player_1", ⟨JValue.jobj [("a", JValue.jnum 1)], 0⟩)] "1").1 = none ∧
    (get_player_data trivSoup none (fun _ => NetResult.connError) 3601
        [("player_1", ⟨JValue.jobj [("a", JValue.jnum 1)], 0⟩)] "1").2.2 =
      htmlUrls "1" := by
  have hl : cacheLookup [("player_1", (⟨JValue.jobj [("a", JValue.jnum 1)], 0⟩ : CEntry))]
      ("player_" ++ "1") = some ⟨JValue.jobj [("a", JValue.jnum 1)], 0⟩ := rfl
  have hhit : (get_from_cache [("player_1", ⟨JValue.jobj [("a", JValue.jnum 1)], 0⟩)] 3599
      ("player_" ++ "1")).1 = some (JValue.jobj [("a", JValue.jnum 1)]) := by
    simp only [get_from_cache, hl]
    rw [if_pos (by norm_num)]
  have hexp : get_from_cache [("player_1", ⟨JValue.jobj [("a", JValue.jnum 1)], 0⟩)] 3601
      ("player_" ++ "1") = (none, []) := by
    simp only [get_from_cache, hl]
    rw [if_neg (by norm_num)]
    rfl
  refine ⟨?_, by norm_num, ?_, ?_⟩
  · rw [get_player_data_hit hhit rfl]
  · rw [get_player_data_miss (by rw [hexp]), hexp]
    rfl
  · rw [get_player_data_miss (by rw [hexp]), hexp]
    rfl

theorem C3_amended_witness :
    get_player_data trivSoup (some "k")
      (fun _ => NetResult.resp 200 "" (some (JValue.jobj [("a", JValue.jnum 1)]))) 10
      [("player_1", ⟨JValue.jobj [("a", JValue.jnum 1)], 0⟩)] "1" =
      (some (JValue.jobj [("a", JValue.jnum 1)]),
        [("player_1", ⟨JValue.jobj [("a", JValue.jnum 1)], 0⟩)], []) :=
  C3_amended_idempotent_after_fresh_store
    (show (get_from_cache [] 0 ("player_" ++ "1")).1 = none from rfl)
    (show get_player_data trivSoup (some "k")
        (fun _ => NetResult.resp 200 "" (some (JValue.jobj [("a", JValue.jnum 1)]))) 0 [] "1" =
      (some (JValue.jobj [("a", JValue.jnum 1)]),
        [("player_1", ⟨JValue.jobj [("a", JValue.jnum 1)], 0⟩)],
        ["https://www.tornstats.com/api/v1/player/1"]) from rfl)
    (by norm_num)

/-- C1.  `get_player_data` is a total function into `Option JValue`: every
exception site of the strategies is modelled and caught at the handler that
the source installs around it, so the model returns a value for every
environment (including ones that raise on every request and parse).  With no
credential configured and an unreachable host, the end-to-end result is
`None`; and every non-`None` result is a truthy data record. -/
theorem C1_get_player_data_robust :
    (∀ (S : SoupModel) (env : Env) (t : ℚ) (playerId : String),
      (∀ u, env u = NetResult.connError) →
      (get_player_data S none env t [] playerId).1 = none) ∧
    (∀ (S : SoupModel) (apiKey : Option String) (env : Env) (t : ℚ)
        (c : List (String × CEntry)) (playerId : String) (v : JValue),
      (get_player_data S apiKey env t c playerId).1 = some v → truthy v = true) := by
  constructor
  · intro S env t playerId h
    simp [get_player_data, get_from_cache, cacheLookup, jsonStep, htmlStep, authStep,
      fetch_json_api, parse_html_profile, try_authenticated_access, scanUrls,
      tryHtmlUrl, htmlUrls, h]
  · intro S apiKey env t c playerId v h
    unfold get_player_data at h
    cases hg : (get_from_cache c t ("player_" ++ playerId)).1 with
    | some d =>
      simp only [hg] at h
      by_cases hd : truthy d
      · rw [if_pos hd] at h
        have : d = v := by simpa using h
        rw [← this]
        exact hd
      · rw [if_neg hd] at h
        exact jsonStep_truthy h
    | none =>
      simp only [hg] at h
      exact jsonStep_truthy h

theorem C1_get_player_data_robust_witness :
    (get_player_data trivSoup none (fun _ => NetResult.connError) 0 [] "1").1 = none ∧
    truthy (JValue.jobj [("a", JValue.jnum 1)]) = true :=
  ⟨C1_get_player_data_robust.1 trivSoup (fun _ => NetResult.connError) 0 "1" (fun _ => rfl),
   C1_get_player_data_robust.2 trivSoup (some "k")
     (fun _ => NetResult.resp 200 "" (some (JValue.jobj [("a", JValue.jnum 1)]))) 0 [] "1"
     (JValue.jobj [("a", JValue.jnum 1)]) rfl⟩

/-- C4 (counterexample to the claim as stated): every endpoint answers HTTP
200 with the JSON body `{}` — a successful structural parse on which the
normaliser is defined (it returns `{}` unchanged) — yet the strategy does not
return the normaliser's output for the first such attempt: the `if data:`
truthiness test makes it fall through all six attempts and return `None`. -/
theorem C4_counterexample_falsy_json_continues :
    (fetch_json_api (some "k") (fun _ => NetResult.resp 200 "" (some (JValue.jobj [])))
      "1").1 = none ∧
    normalize_tornstats_data (JValue.jobj []) = .ok (JValue.jobj []) ∧
    truthy (JValue.jobj []) = false :=
  ⟨rfl, rfl, rfl⟩

/-- C4 (amended).  The JSON-API strategy scans the three official endpoints
with a bearer header and then the same three with the key as a query
parameter; on the first attempt whose response is HTTP 200 with a body that
parses as JSON to a *truthy* value on which the normaliser does not raise,
it returns the normaliser's output immediately and requests nothing further;
a timeout, a connection error, a non-200 status, a non-JSON body — and also a
falsy JSON body or a normaliser TypeError — only advance the loop. -/
theorem C4_amended_first_truthy_json_hit_short_circuits :
    (∀ (apiKey playerId : String),
      apiAttempts apiKey playerId =
        apiEndpoints playerId ++ (apiEndpoints playerId).map (fun e => e ++ "?key=" ++ apiKey)) ∧
    (∀ (env : Env) (k playerId : String) (l₁ : List String) (u : String)
        (l₂ : List String) (v : JValue),
      k ≠ "" → apiAttempts k playerId = l₁ ++ u :: l₂ →
      (∀ x ∈ l₁, tryApiUrl env x = none) → tryApiUrl env u = some v →
      fetch_json_api (some k) env playerId = (some v, l₁ ++ [u])) ∧
    (∀ (env : Env) (u txt : String) (data : JValue) (v : JValue),
      env u = NetResult.resp 200 txt (some data) → truthy data = true →
      normalize_tornstats_data data = .ok v → tryApiUrl env u = some v) ∧
    (∀ (env : Env) (u txt : String), env u = NetResult.resp 200 txt none →
      tryApiUrl env u = none) ∧
    (∀ (env : Env) (u : String), env u = NetResult.timeout → tryApiUrl env u = none) ∧
    (∀ (env : Env) (u : String), env u = NetResult.connError → tryApiUrl env u = none) ∧
    (∀ (env : Env) (u txt : String) (st : Nat) (j : Option JValue),
      env u = NetResult.resp st txt j → st ≠ 200 → tryApiUrl env u = none) := by
  refine ⟨fun _ _ => rfl, ?_, ?_, ?_, ?_, ?_, ?_⟩
  · intro env k playerId l₁ u l₂ v hk happ hmiss hu
    show (if k = "" then (none, []) else scanUrls (tryApiUrl env) (apiAttempts k playerId)) =
      (some v, l₁ ++ [u])
    rw [if_neg hk, happ]
    exact scanUrls_firstHit l₁ u l₂ v hmiss hu
  · intro env u txt data v h ht hn
    simp [tryApiUrl, h, ht, hn]
  · intro env u txt h
    simp [tryApiUrl, h]
  · intro env u h
    simp [tryApiUrl, h]
  · intro env u h
    simp [tryApiUrl, h]
  · intro env u txt st j h hne
    simp [tryApiUrl, h, hne]

theorem C4_amended_witness :
    fetch_json_api (some "k")
      (fun u => if u = "https://www.tornstats.com/api/v1/player/1" then
        NetResult.resp 200 "" (some (JValue.jobj [("spy", JValue.jobj [])]))
        else NetResult.connError) "1" =
      (some (JValue.jobj [("spy", JValue.jobj [])]),
        ["https://www.tornstats.com/api/v1/player/1"]) :=
  C4_amended_first_truthy_json_hit_short_circuits.2.1
    (fun u => if u = "https://www.tornstats.com/api/v1/player/1" then
      NetResult.resp 200 "" (some (JValue.jobj [("spy", JValue.jobj [])]))
      else NetResult.connError) "k" "1" [] "https://www.tornstats.com/api/v1/player/1"
    ["https://www.tornstats.com/api/v1/player/1/full",
     "https://www.tornstats.com/api/v1/battles/1",
     "https://www.tornstats.com/api/v1/player/1?key=k",
     "https://www.tornstats.com/api/v1/player/1/full?key=k",
     "https://www.tornstats.com/api/v1/battles/1?key=k"]
    (JValue.jobj [("spy", JValue.jobj [])])
    (by simp) rfl (by intro x hx; simp at hx) rfl

/-- C5.  Shape invariance of the normaliser: the four recognised input shapes
carrying the same field values — the canonical spy shape itself, the
`user`-wrapped shape, the `{status: "ok", stats: {...}}` shape, and the bare
stats dict — all normalise to the bit-identical canonical record. -/
theorem C5_normalizer_shape_invariance
    (name level strength defense speed dexterity updateTime : JValue) :
    normalize_tornstats_data
        (spyWrap name level strength defense speed dexterity updateTime
          (.jstr "TornStats API")) =
      .ok (spyWrap name level strength defense speed dexterity updateTime
        (.jstr "TornStats API")) ∧
    normalize_tornstats_data (.jobj [("user", .jobj
        [("name", name), ("level", level), ("strength", strength), ("defense", defense),
         ("speed", speed), ("dexterity", dexterity), ("update_time", updateTime)])]) =
      .ok (spyWrap name level strength defense speed dexterity updateTime
        (.jstr "TornStats API")) ∧
    normalize_tornstats_data (.jobj [("status", .jstr "ok"), ("stats", .jobj
        [("name", name), ("level", level), ("strength", strength), ("defense", defense),
         ("speed", speed), ("dexterity", dexterity), ("update_time", updateTime)])]) =
      .ok (spyWrap name level strength defense speed dexterity updateTime
        (.jstr "TornStats API")) ∧
    normalize_tornstats_data (.jobj
        [("name", name), ("level", level), ("strength", strength), ("defense", defense),
         ("speed", speed), ("dexterity", dexterity), ("update_time", updateTime)]) =
      .ok (spyWrap name level strength defense speed dexterity updateTime
        (.jstr "TornStats API")) :=
  ⟨rfl, rfl, rfl, rfl⟩

/-- C6 (counterexample to the claim as stated): the JSON value `5` is of
unrecognised shape, but the normaliser does not return it unmodified — Python
evaluates `'spy' in 5` and raises a TypeError (modelled by `.error ()`), which
the calling strategy then swallows as an endpoint miss. -/
theorem C6_counterexample_number_input_raises :
    normalize_tornstats_data (JValue.jnum 5) = .error () ∧
    truthy (JValue.jnum 5) = true :=
  ⟨rfl, rfl⟩

/-- C6 (amended).  The normaliser is the identity on every *dict* that
contains a `'spy'` key and on every *dict* of unrecognised shape (no `spy` or
`user` key, no `status == 'ok'` with a `stats` key, and at least one of the
four stat keys missing); a non-dict input such as a number can instead raise
a TypeError, which the JSON-API strategy catches as an endpoint miss.
Consequently, when the first endpoint answers 200 with a truthy spy-shaped
dict, `get_player_data` returns that body unchanged. -/
theorem C6_amended_identity_on_spy_and_unrecognized_dicts :
    (∀ l : List (String × JValue), hasKey l "spy" = true →
      normalize_tornstats_data (.jobj l) = .ok (.jobj l)) ∧
    (∀ l : List (String × JValue), hasKey l "spy" = false → hasKey l "user" = false →
      statusOkStats l = false →
      (hasKey l "strength" = false ∨ hasKey l "defense" = false ∨
        hasKey l "speed" = false ∨ hasKey l "dexterity" = false) →
      normalize_tornstats_data (.jobj l) = .ok (.jobj l)) ∧
    (∀ (S : SoupModel) (env : Env) (apiKey : String) (t : ℚ)
        (c : List (String × CEntry)) (playerId : String) (l : List (String × JValue))
        (txt : String),
      apiKey ≠ "" →
      (get_from_cache c t ("player_" ++ playerId)).1 = none →
      env ("https://www.tornstats.com/api/v1/player/" ++ playerId) =
        NetResult.resp 200 txt (some (.jobj l)) →
      l ≠ [] → hasKey l "spy" = true →
      (get_player_data S (some apiKey) env t c playerId).1 = some (.jobj l)) := by
  refine ⟨fun l h => normalize_spy_passthrough h, ?_, ?_⟩
  · intro l h1 h2 h3 h4
    exact normalize_unrecognized_dict h1 h2 h3 h4
  · intro S env apiKey t c playerId l txt hk hmiss henv hne hspy
    have htr : truthy (JValue.jobj l) = true := by
      simp [truthy, hne]
    have hhit : tryApiUrl env ("https://www.tornstats.com/api/v1/player/" ++ playerId) =
        some (.jobj l) := by
      simp [tryApiUrl, henv, htr, normalize_spy_passthrough hspy]
    have hfetch : fetch_json_api (some apiKey) env playerId = (some (.jobj l),
        ["https://www.tornstats.com/api/v1/player/" ++ playerId]) := by
      show (if apiKey = "" then (none, [])
        else scanUrls (tryApiUrl env) (apiAttempts apiKey playerId)) = _
      rw [if_neg hk]
      have happ : apiAttempts apiKey playerId =
          [] ++ ("https://www.tornstats.com/api/v1/player/" ++ playerId) ::
            (("https://www.tornstats.com/api/v1/player/" ++ playerId ++ "/full") ::
              ("https://www.tornstats.com/api/v1/battles/" ++ playerId) ::
              (apiEndpoints playerId).map (fun e => e ++ "?key=" ++ apiKey)) := rfl
      rw [happ]
      exact scanUrls_firstHit [] _ _ _ (by intro x hx; simp at hx) hhit
    rw [get_player_data_miss hmiss]
    unfold jsonStep
    rw [hfetch]
    simp [htr]

theorem C6_amended_witness :
    normalize_tornstats_data (.jobj [("spy", JValue.jobj [])]) =
      .ok (.jobj [("spy", JValue.jobj [])]) ∧
    normalize_tornstats_data (.jobj [("foo", JValue.jnum 1)]) =
      .ok (.jobj [("foo", JValue.jnum 1)]) ∧
    (get_player_data trivSoup (some "k")
      (fun u => if u = "https://www.tornstats.com/api/v1/player/1" then
        NetResult.resp 200 "" (some (JValue.jobj [("spy", JValue.jobj [("x", JValue.jnum 7)])]))
        else NetResult.connError) 0 [] "1").1 =
      some (JValue.jobj [("spy", JValue.jobj [("x", JValue.jnum 7)])]) :=
  ⟨C6_amended_identity_on_spy_and_unrecognized_dicts.1 [("spy", JValue.jobj [])] rfl,
   C6_amended_identity_on_spy_and_unrecognized_dicts.2.1 [("foo", JValue.jnum 1)]
     rfl rfl rfl (Or.inl rfl),
   C6_amended_identity_on_spy_and_unrecognized_dicts.2.2 trivSoup
     (fun u => if u = "https://www.tornstats.com/api/v1/player/1" then
       NetResult.resp 200 "" (some (JValue.jobj [("spy", JValue.jobj [("x", JValue.jnum 7)])]))
       else NetResult.connError) "k" 0 [] "1" [("spy", JValue.jobj [("x", JValue.jnum 7)])] ""
     (by simp) rfl (by simp) (by simp) rfl⟩

theorem scanUrls_some {f : String → Option JValue} :
    ∀ {l : List String} {r : JValue}, (scanUrls f l).1 = some r →
      ∃ u, u ∈ l ∧ f u = some r := by
  intro l
  induction l with
  | nil => intro r h; simp [scanUrls] at h
  | cons u rest ih =>
    intro r h
    cases hu : f u with
    | some v =>
      rw [scanUrls_cons_hit hu] at h
      injection h with hvr
      exact ⟨u, List.mem_cons_self u rest, by rw [hu, hvr]⟩
    | none =>
      rw [scanUrls_cons_miss hu] at h
      obtain ⟨w, hw, hfw⟩ := ih h
      exact ⟨w, List.mem_cons_of_mem u hw, hfw⟩

theorem tryHtmlUrl_some {S : SoupModel} {env : Env} {playerId u : String} {r : JValue}
    (h : tryHtmlUrl S env playerId u = some r) : hasAllSpyKeys r = true := by
  unfold tryHtmlUrl at h
  split at h
  · split at h
    · dsimp only [] at h
      split at h
      · injection h with hr
        rw [← hr]
        unfold htmlRecord
        exact hasAllSpyKeys_spyWrap _ _ _ _ _ _ _ _
      · exact Option.noConfusion h
    · exact Option.noConfusion h
  · exact Option.noConfusion h

theorem parse_spy_html_some {S : SoupModel} {text playerId : String} {r : JValue}
    (h : parse_tornstats_spy_html S text playerId = some r) : hasAllSpyKeys r = true := by
  unfold parse_tornstats_spy_html at h
  split at h
  · injection h with hr
    rw [← hr]
    exact hasAllSpyKeys_spyWrap _ _ _ _ _ _ _ _
  · exact Option.noConfusion h

/-- C2 (counterexample to the claim as stated): the first endpoint answers
200 with the spy-shaped body `{"spy": {}}`; the normaliser passes it through
unchanged, `get_player_data` returns it — and its `spy` object contains none
of the required keys. -/
theorem C2_counterexample_spy_passthrough_missing_keys :
    (get_player_data trivSoup (some "k")
      (fun u => if u = "https://www.tornstats.com/api/v1/player/1" then
        NetResult.resp 200 "" (some (JValue.jobj [("spy", JValue.jobj [])]))
        else NetResult.connError) 0 [] "1").1 =
      some (JValue.jobj [("spy", JValue.jobj [])]) ∧
    hasAllSpyKeys (JValue.jobj [("spy", JValue.jobj [])]) = false :=
  ⟨rfl, rfl⟩

/-- C2 (amended).  Every record *constructed* by the adapter — the
`user`-wrapped, `status`/`stats` and bare-stats branches of the normaliser,
and the two HTML parsers — carries all eight keys (`name`, `level`,
`strength`, `defense`, `speed`, `dexterity`, `update_time`, `source`) under
`spy`, with absent fields defaulted; but the normaliser's pass-through
branches (a dict already containing `spy`, or an unrecognised shape) return
their input unchanged, so such `get_player_data` results may lack keys. -/
theorem C2_amended_constructed_records_have_all_keys :
    (∀ n l s d sp dx u src : JValue, hasAllSpyKeys (spyWrap n l s d sp dx u src) = true) ∧
    (∀ l inner : List (String × JValue), hasKey l "spy" = false →
      olookup l "user" = some (.jobj inner) →
      ∃ rec, normalize_tornstats_data (.jobj l) = .ok rec ∧ hasAllSpyKeys rec = true) ∧
    (∀ l inner : List (String × JValue), hasKey l "spy" = false →
      hasKey l "user" = false → olookup l "status" = some (.jstr "ok") →
      olookup l "stats" = some (.jobj inner) →
      ∃ rec, normalize_tornstats_data (.jobj l) = .ok rec ∧ hasAllSpyKeys rec = true) ∧
    (∀ l : List (String × JValue), hasKey l "spy" = false → hasKey l "user" = false →
      hasKey l "status" = false → hasKey l "strength" = true → hasKey l "defense" = true →
      hasKey l "speed" = true → hasKey l "dexterity" = true →
      ∃ rec, normalize_tornstats_data (.jobj l) = .ok rec ∧ hasAllSpyKeys rec = true) ∧
    (∀ (S : SoupModel) (env : Env) (playerId : String) (r : JValue),
      (parse_html_profile S env playerId).1 = some r → hasAllSpyKeys r = true) ∧
    (∀ (S : SoupModel) (text playerId : String) (r : JValue),
      parse_tornstats_spy_html S text playerId = some r → hasAllSpyKeys r = true) := by
  refine ⟨fun n l s d sp dx u src => hasAllSpyKeys_spyWrap n l s d sp dx u src,
    ?_, ?_, ?_, ?_, fun S text playerId r h => parse_spy_html_some h⟩
  · intro l inner h1 h2
    exact ⟨_, normalize_user_branch h1 h2, hasAllSpyKeys_spyWrap _ _ _ _ _ _ _ _⟩
  · intro l inner h1 h2 h3 h4
    exact ⟨_, normalize_stats_branch h1 h2 h3 h4, hasAllSpyKeys_spyWrap _ _ _ _ _ _ _ _⟩
  · intro l h1 h2 h3 h4 h5 h6 h7
    exact ⟨_, normalize_bare_branch h1 h2 h3 h4 h5 h6 h7,
      hasAllSpyKeys_spyWrap _ _ _ _ _ _ _ _⟩
  · intro S env playerId r h
    obtain ⟨u, _, hu⟩ := scanUrls_some h
    exact tryHtmlUrl_some hu

/-- A soup model whose profile extraction finds one strength value. -/
def statSoup : SoupModel where
  profileStats _ := [("strength", 1)]
  profileName _ := none
  profileLevel _ := 0
  hasSpyContainer _ := true
  spyStats _ := []
  spyName _ := none
  spyLevel _ := 0
  jsonLoads _ := none

theorem C2_amended_witness :
    hasAllSpyKeys (spyWrap (JValue.jstr "A") (JValue.jnum 1) (JValue.jnum 2)
      (JValue.jnum 3) (JValue.jnum 4) (JValue.jnum 5) (JValue.jstr "t")
      (JValue.jstr "s")) = true ∧
    (∃ rec, normalize_tornstats_data (.jobj [("user", JValue.jobj [])]) = .ok rec ∧
      hasAllSpyKeys rec = true) ∧
    (∃ rec, normalize_tornstats_data (.jobj [("status", JValue.jstr "ok"),
      ("stats", JValue.jobj [])]) = .ok rec ∧ hasAllSpyKeys rec = true) ∧
    (∃ rec, normalize_tornstats_data (.jobj [("strength", JValue.jnum 1),
      ("defense", JValue.jnum 2), ("speed", JValue.jnum 3),
      ("dexterity", JValue.jnum 4)]) = .ok rec ∧ hasAllSpyKeys rec = true) ∧
    hasAllSpyKeys (htmlRecord "1" none 0 [("strength", 1)]) = true ∧
    hasAllSpyKeys (spyWrap (JValue.jstr "Player 1") (JValue.jnum 0) (JValue.jnum 0)
     (JValue.jnum 0) (JValue.jnum 0) (JValue.jnum 0) (JValue.jstr "HTML Extraction")
     (JValue.jstr "HTML Spy")) = true :=
  ⟨C2_amended_constructed_records_have_all_keys.1 (JValue.jstr "A") (JValue.jnum 1)
     (JValue.jnum 2) (JValue.jnum 3) (JValue.jnum 4) (JValue.jnum 5) (JValue.jstr "t")
     (JValue.jstr "s"),
   C2_amended_constructed_records_have_all_keys.2.1 [("user", JValue.jobj [])] [] rfl rfl,
   C2_amended_constructed_records_have_all_keys.2.2.1
     [("status", JValue.jstr "ok"), ("stats", JValue.jobj [])] [] rfl rfl rfl rfl,
   C2_amended_constructed_records_have_all_keys.2.2.2.1
     [("strength", JValue.jnum 1), ("defense", JValue.jnum 2), ("speed", JValue.jnum 3),
      ("dexterity", JValue.jnum 4)] rfl rfl rfl rfl rfl rfl rfl,
   C2_amended_constructed_records_have_all_keys.2.2.2.2.1 statSoup
     (fun _ => NetResult.resp 200 "" none) "1" (htmlRecord "1" none 0 [("strength", 1)]) rfl,
   C2_amended_constructed_records_have_all_keys.2.2.2.2.2 statSoup "" "1"
     (spyWrap (JValue.jstr "Player 1") (JValue.jnum 0) (JValue.jnum 0) (JValue.jnum 0)
       (JValue.jnum 0) (JValue.jnum 0) (JValue.jstr "HTML Extraction")
       (JValue.jstr "HTML Spy")) rfl⟩

/-- C7 (counterexample to the claim as stated): the bot_package version of
`estimate_primary_stat` has no `None` guard — at `damage = 0, turns = 5,
my = 1000` (which the claim says yields null) it returns the number 0. -/
theorem C7_counterexample_zero_damage_returns_zero :
    BotPackage.estimate_primary_stat 0 5 1000 = .ok 0 := by
  unfold BotPackage.estimate_primary_stat
  rw [if_pos (by norm_num : (0:ℝ) < 5)]
  norm_num [Real.zero_rpow]

/-- C7 (amended).  The two implementations differ from the claim: the
bot_package version never returns `None` — it yields 0 for `turns ≤ 0` or
`damage = 0` and otherwise the power-law estimate
`round((my * ((damage/turns)/240) ^ 0.65) / 1000) * 1000`; the backup_utils
version does return `None` exactly when `turns ≤ 0 or damage ≤ 0`, but uses
the different formula `floor((my * 1000 / (damage/turns)) / 1000) * 1000`
(e.g. 4000 rather than the power-law 1000 at damage 1200, turns 5, my 1000).
-/
theorem C7_amended_estimate_primary_stat :
    (∀ damage turns my : ℝ, turns ≤ 0 →
      BotPackage.estimate_primary_stat damage turns my = .ok 0) ∧
    (∀ turns my : ℝ, 0 < turns →
      BotPackage.estimate_primary_stat 0 turns my = .ok 0) ∧
    (∀ damage turns my : ℝ, 0 ≤ damage → 0 < turns →
      BotPackage.estimate_primary_stat damage turns my =
        .ok (((round ((my * (((damage / turns) / 240) ^ (0.65:ℝ))) / 1000) : ℤ) : ℝ)
          * 1000)) ∧
    (∀ damage turns my : ℚ, turns ≤ 0 ∨ damage ≤ 0 →
      BackupUtils.estimate_primary_stat damage turns my = none) ∧
    (∀ damage turns my : ℚ, 0 < turns → 0 < damage →
      BackupUtils.estimate_primary_stat damage turns my =
        some (⌊my * 1000 / (damage / turns) / 1000⌋ * 1000)) ∧
    BackupUtils.estimate_primary_stat 1200 5 1000 = some 4000 := by
  refine ⟨?_, ?_, ?_, ?_, ?_, ?_⟩
  · intro damage turns my h
    unfold BotPackage.estimate_primary_stat
    rw [if_neg (not_lt.mpr h)]
    norm_num [Real.zero_rpow]
  · intro turns my h
    unfold BotPackage.estimate_primary_stat
    rw [if_pos h]
    norm_num [Real.zero_rpow]
  · intro damage turns my hd ht
    unfold BotPackage.estimate_primary_stat
    rw [if_pos ht]
    rw [if_neg (not_lt.mpr (by positivity))]
  · intro damage turns my h
    unfold BackupUtils.estimate_primary_stat
    rw [if_pos h]
  · intro damage turns my ht hd
    unfold BackupUtils.estimate_primary_stat
    rw [if_neg (by push_neg; exact ⟨ht, hd⟩)]
  · norm_num [BackupUtils.estimate_primary_stat]

theorem C7_amended_witness :
    BotPackage.estimate_primary_stat 3 (-2) 7 = .ok 0 ∧
    BotPackage.estimate_primary_stat 0 7 50 = .ok 0 ∧
    BotPackage.estimate_primary_stat 240 1 1000 =
      .ok (((round ((1000 * (((240 / 1) / 240 : ℝ) ^ (0.65:ℝ))) / 1000) : ℤ) : ℝ)
        * 1000) ∧
    BackupUtils.estimate_primary_stat (-3) 5 1000 = none ∧
    BackupUtils.estimate_primary_stat 500 2 1000 =
      some (⌊(1000:ℚ) * 1000 / (500 / 2) / 1000⌋ * 1000) :=
  ⟨C7_amended_estimate_primary_stat.1 3 (-2) 7 (by norm_num),
   C7_amended_estimate_primary_stat.2.1 7 50 (by norm_num),
   C7_amended_estimate_primary_stat.2.2.1 240 1 1000 (by norm_num) (by norm_num),
   C7_amended_estimate_primary_stat.2.2.2.1 (-3) 5 1000 (Or.inr (by norm_num)),
   C7_amended_estimate_primary_stat.2.2.2.2.1 500 2 1000 (by norm_num) (by norm_num)⟩

theorem alookup_aset {α : Type} (l : List (String × α)) (key : String) (v : α) :
    alookup (aset l key v) key = some v := by
  simp [aset, alookup]

theorem pyInt_intCast (n : ℤ) : pyInt (n : ℚ) = n := by
  unfold pyInt
  split <;> simp

/-- C9.  Both `add_spy_data` implementations store the record under
`str(player_id)` and return it; the record carries a timestamp, and its
`total` field equals the sum of its four stored stat fields — and, for
integer inputs, the sum of the call's four stat arguments. -/
theorem C9_add_spy_data_total_invariant :
    (∀ (spies : List (String × BotPackage.SpyRecord)) (pid : ℤ)
        (s sp dx df now : ℚ) (date : String),
      alookup (BotPackage.add_spy_data spies pid s sp dx df now date).1 (toString pid) =
        some (BotPackage.add_spy_data spies pid s sp dx df now date).2 ∧
      (BotPackage.add_spy_data spies pid s sp dx df now date).2.total =
        (BotPackage.add_spy_data spies pid s sp dx df now date).2.strength +
        (BotPackage.add_spy_data spies pid s sp dx df now date).2.speed +
        (BotPackage.add_spy_data spies pid s sp dx df now date).2.dexterity +
        (BotPackage.add_spy_data spies pid s sp dx df now date).2.defense ∧
      (BotPackage.add_spy_data spies pid s sp dx df now date).2.timestamp = now) ∧
    (∀ (sd : List (String × BackupUtils.SpyRecord)) (pid : ℤ)
        (s sp dx df : ℚ) (iso : String),
      alookup (BackupUtils.add_spy_data sd pid s sp dx df iso).1 (toString pid) =
        some (BackupUtils.add_spy_data sd pid s sp dx df iso).2 ∧
      (BackupUtils.add_spy_data sd pid s sp dx df iso).2.total =
        (BackupUtils.add_spy_data sd pid s sp dx df iso).2.str +
        (BackupUtils.add_spy_data sd pid s sp dx df iso).2.spd +
        (BackupUtils.add_spy_data sd pid s sp dx df iso).2.dex +
        (BackupUtils.add_spy_data sd pid s sp dx df iso).2.defStat ∧
      (BackupUtils.add_spy_data sd pid s sp dx df iso).2.timestamp = iso) ∧
    (∀ (sd : List (String × BackupUtils.SpyRecord)) (pid : ℤ)
        (s sp dx df : ℤ) (iso : String),
      (BackupUtils.add_spy_data sd pid (s : ℚ) (sp : ℚ) (dx : ℚ) (df : ℚ) iso).2.total =
        s + sp + dx + df) := by
  refine ⟨?_, ?_, ?_⟩
  · intro spies pid s sp dx df now date
    exact ⟨alookup_aset spies (toString pid) _, rfl, rfl⟩
  · intro sd pid s sp dx df iso
    exact ⟨alookup_aset sd (toString pid) _, rfl, rfl⟩
  · intro sd pid s sp dx df iso
    show pyInt (s : ℚ) + pyInt (sp : ℚ) + pyInt (dx : ℚ) + pyInt (df : ℚ) = s + sp + dx + df
    rw [pyInt_intCast, pyInt_intCast, pyInt_intCast, pyInt_intCast]

/-- C10.  Neither `get_recommendation` divides by zero: a missing or falsy
enemy record, or a zero/absent total on either side, short-circuits to the
no-data / insufficient-data result with `"none"` confidence, and the ratio
`my_total / enemy_total` is computed only when both totals are non-zero. -/
theorem C10_get_recommendation_no_div_by_zero :
    (∀ (now : ℚ) (your : List (String × ℚ)),
      BotPackage.get_recommendation now your none =
        ("No data available to make a recommendation", "none")) ∧
    (∀ (now : ℚ) (your : List (String × ℚ)),
      BotPackage.get_recommendation now your (some []) =
        ("No data available to make a recommendation", "none")) ∧
    (∀ (now : ℚ) (your e : List (String × ℚ)), e ≠ [] →
      ((alookup your "total").getD 0 = 0 ∨ (alookup e "total").getD 0 = 0) →
      BotPackage.get_recommendation now your (some e) =
        ("Insufficient data for recommendation", "none")) ∧
    (∀ (now : ℚ) (your e : List (String × ℚ)), e ≠ [] →
      (alookup your "total").getD 0 ≠ 0 → (alookup e "total").getD 0 ≠ 0 →
      BotPackage.get_recommendation now your (some e) =
        (BotPackage.recommend_text
          ((alookup your "total").getD 0 / (alookup e "total").getD 0),
         BotPackage.get_stat_confidence now (some e))) ∧
    (∀ (my enemy : Option ℚ),
      my = none ∨ my = some 0 ∨ enemy = none ∨ enemy = some 0 →
      BackupUtils.get_recommendation my enemy = "unknown") ∧
    (∀ m e : ℚ, m ≠ 0 → e ≠ 0 →
      BackupUtils.get_recommendation (some m) (some e) =
        BackupUtils.recommend_text (m / e)) := by
  refine ⟨fun now your => rfl, fun now your => rfl, ?_, ?_, ?_, ?_⟩
  · intro now your e hne hor
    unfold BotPackage.get_recommendation
    dsimp only []
    rw [if_neg hne, if_pos hor]
  · intro now your e hne hy he
    unfold BotPackage.get_recommendation
    dsimp only []
    rw [if_neg hne, if_neg (not_or.mpr ⟨hy, he⟩)]
  · intro my enemy h
    unfold BackupUtils.get_recommendation
    rcases h with rfl | rfl | rfl | rfl
    · cases enemy <;> rfl
    · cases enemy with
      | none => rfl
      | some e => simp
    · rfl
    · cases my with
      | none => rfl
      | some m => simp
  · intro m e hm he
    unfold BackupUtils.get_recommendation
    dsimp only []
    rw [if_neg (not_or.mpr ⟨he, hm⟩)]

theorem C10_get_recommendation_no_div_by_zero_witness :
    BotPackage.get_recommendation 0 [] none =
      ("No data available to make a recommendation", "none") ∧
    BotPackage.get_recommendation 0 [] (some []) =
      ("No data available to make a recommendation", "none") ∧
    BotPackage.get_recommendation 0 [] (some [("x", 1)]) =
      ("Insufficient data for recommendation", "none") ∧
    BotPackage.get_recommendation 0 [("total", 5)] (some [("total", 2)]) =
      (BotPackage.recommend_text
        ((alookup [("total", (5:ℚ))] "total").getD 0 /
          (alookup [("total", (2:ℚ))] "total").getD 0),
       BotPackage.get_stat_confidence 0 (some [("total", 2)])) ∧
    BackupUtils.get_recommendation (some 3) none = "unknown" ∧
    BackupUtils.get_recommendation (some 3) (some 2) =
      BackupUtils.recommend_text (3 / 2) :=
  ⟨C10_get_recommendation_no_div_by_zero.1 0 [],
   C10_get_recommendation_no_div_by_zero.2.1 0 [],
   C10_get_recommendation_no_div_by_zero.2.2.1 0 [] [("x", 1)] (by simp) (Or.inl rfl),
   C10_get_recommendation_no_div_by_zero.2.2.2.1 0 [("total", 5)] [("total", 2)]
     (by simp) (by norm_num [alookup]) (by norm_num [alookup]),
   C10_get_recommendation_no_div_by_zero.2.2.2.2.1 (some 3) none
     (Or.inr (Or.inr (Or.inl rfl))),
   C10_get_recommendation_no_div_by_zero.2.2.2.2.2 3 2 (by norm_num) (by norm_num)⟩
